import Mathlib

/-!
Verification of the PyMdown CLI front end (`__main__.py`) and the two
inline-tag extensions (`mdownx/delete.py`, `mdownx/insert.py`).

The Python code is shallowly embedded: pure helpers become Lean functions,
the stateful per-document pipeline becomes explicit state passing that
returns a status (`PASS`/`FAIL`) together with a trace of observable
events (log lines, collaborator calls, writes).  Collaborators that live
in the `lib` package (settings resolver, front-matter parser, resource
loader, formatter, critic engine) are not part of the sources; they are
abstracted as oracle fields of an `Env` record, and constants of theirs
that the claims need are modelled from the spec where noted.
-/

namespace PyMdown

/-! ### POSIX path primitives (`os.path` as used by the code) -/

/-- Does the string start with the character `c`
(`str.startswith(c)` for a one-character `c`)? -/
def headIs (s : String) (c : Char) : Bool := s.data.head? = some c

/-- Does the string end with the character `c`
(`str.endswith(c)` for a one-character `c`)? -/
def lastIs (s : String) (c : Char) : Bool := s.data.getLast? = some c

/-- `posixpath.join(a, b)` for two components, as CPython implements it. -/
def pathJoin (a b : String) : String :=
  if headIs b '/' then b
  else if a = "" ∨ lastIs a '/' then a ++ b
  else a ++ "/" ++ b

/-- `str.split(sep)` for a one-character separator (keeps empty parts). -/
def splitOnChar (sep : Char) (l : List Char) : List (List Char) :=
  l.foldr
    (fun c acc =>
      match acc with
      | [] => [[]]
      | cur :: rest => if c = sep then [] :: cur :: rest else (c :: cur) :: rest)
    [[]]

/-- `'/'.join(parts)`. -/
def intercalateSlash : List (List Char) → List Char
  | [] => []
  | [x] => x
  | x :: xs => x ++ '/' :: intercalateSlash xs

/-- One step of `posixpath.normpath`'s component loop. -/
def normStep (initialSlashes : Nat) (acc : List (List Char)) (comp : List Char) :
    List (List Char) :=
  if comp = [] ∨ comp = ['.'] then acc
  else if comp ≠ ['.', '.'] ∨ (initialSlashes = 0 ∧ acc = []) ∨ acc.getLast? = some ['.', '.'] then
    acc ++ [comp]
  else if acc ≠ [] then acc.dropLast
  else acc

/-- `posixpath.normpath`, as CPython implements it (collapse `.`, `..`,
repeated separators; keep exactly a doubled leading slash). -/
def normpath (p : String) : String :=
  if p = "" then "."
  else
    let d := p.data
    let initialSlashes : Nat :=
      match d with
      | '/' :: '/' :: '/' :: _ => 1
      | '/' :: '/' :: _ => 2
      | '/' :: _ => 1
      | _ => 0
    let comps := splitOnChar '/' d
    let newComps := comps.foldl (normStep initialSlashes) []
    let res := List.replicate initialSlashes '/' ++ intercalateSlash newComps
    if res = [] then "." else String.mk res

/-- `posixpath.isabs`. -/
def isabs (p : String) : Bool := headIs p '/'

/-- `posixpath.abspath`, with the process working directory passed
explicitly instead of read from the OS. -/
def abspath (cwd p : String) : String :=
  if isabs p then normpath p else normpath (pathJoin cwd p)

/-- `posixpath.basename`: everything after the last separator. -/
def basename (p : String) : String :=
  String.mk ((splitOnChar '/' p.data).getLastD [])

/-- Index of the last occurrence of `c` in `l`, if any. -/
def lastIdxOf (l : List Char) (c : Char) : Option Nat :=
  (((List.range l.length).filter (fun i => l.get? i = some c)).getLast?)

/-- `posixpath.splitext`: split off the extension at the last dot, unless
every character between the last separator and that dot is itself a dot
(so leading dots of a hidden file never start an extension). -/
def splitext (p : String) : String × String :=
  let l := p.data
  match lastIdxOf l '.' with
  | none => (p, "")
  | some di =>
    let fnameIdx : Nat :=
      match lastIdxOf l '/' with
      | none => 0
      | some si => si + 1
    let gtSep : Bool :=
      match lastIdxOf l '/' with
      | none => true
      | some si => si < di
    if gtSep ∧ (List.range' fnameIdx (di - fnameIdx)).any (fun k => l.get? k ≠ some '.') then
      (String.mk (l.take di), String.mk (l.drop di))
    else (p, "")

/-! ### Python dict operations (ordered association lists)

Front matter and metadata are Python dicts of strings; they are embedded
as ordered association lists, with `dict.update` giving whole-key
replacement. -/

/-- Metadata / front-matter mapping. -/
abbrev Meta := List (String × String)

/-- Dictionary indexing `d[k]` / membership `k in d`: the value at the
first (in a Python dict, only) occurrence of key `k`. -/
def dlookup (k : String) : Meta → Option String
  | [] => none
  | (k', v) :: rest => if k = k' then some v else dlookup k rest

/-- `d1.copy(); d1.update(d2)`: keys of `d1` keep their position but take
`d2`'s value when present; keys only in `d2` are appended in order. -/
def dictUpdate (m1 m2 : Meta) : Meta :=
  m1.map (fun p => match dlookup p.1 m2 with | some v => (p.1, v) | none => p)
    ++ m2.filter (fun p => (dlookup p.1 m1).isNone)

/-- `merge_meta(meta1, meta2, title)` from `__main__.py`: merge `meta2`
over `meta1`, then backfill `"title"` only when absent and a title was
supplied (source has a redundant inner `if title is not None` recheck). -/
def merge_meta (meta1 meta2 : Meta) (title : Option String) : Meta :=
  let meta := dictUpdate meta1 meta2
  if dlookup "title" meta = none ∧ title ≠ none then
    match title with
    | some t => meta ++ [("title", t)]
    | none => meta
  else meta

/-! ### Critic mode flags and `get_critic_mode`

The flag constants live in `lib/settings.py`, which is not among the
sources.  Modelled from the spec: `lib.settings` critic-mode constants —
"a set of independent flags — Ignore, Accept, Reject, View, Dump —
combined by bitwise union", so each flag gets its own bit. -/

/-- Modelled from the spec: independent Ignore flag bit (`lib.settings.CRITIC_IGNORE`). -/
def CRITIC_IGNORE : Nat := 1

/-- Modelled from the spec: independent Accept flag bit (`lib.settings.CRITIC_ACCEPT`). -/
def CRITIC_ACCEPT : Nat := 2

/-- Modelled from the spec: independent Reject flag bit (`lib.settings.CRITIC_REJECT`). -/
def CRITIC_REJECT : Nat := 4

/-- Modelled from the spec: independent View flag bit (`lib.settings.CRITIC_VIEW`). -/
def CRITIC_VIEW : Nat := 8

/-- Modelled from the spec: independent Dump flag bit (`lib.settings.CRITIC_DUMP`). -/
def CRITIC_DUMP : Nat := 16

/-- The command-line flags `get_critic_mode` reads. -/
structure Args where
  accept : Bool
  reject : Bool
  critic_dump : Bool

/-- `get_critic_mode(args)` from `__main__.py`. -/
def get_critic_mode (args : Args) : Nat :=
  let critic_mode := CRITIC_IGNORE
  let critic_mode :=
    if args.accept ∧ args.reject then critic_mode ||| CRITIC_VIEW
    else if args.accept then critic_mode ||| CRITIC_ACCEPT
    else if args.reject then critic_mode ||| CRITIC_REJECT
    else critic_mode
  if args.critic_dump then critic_mode ||| CRITIC_DUMP else critic_mode

/-! ### `get_title` -/

/-- `get_title(file_name, title_val)` from `__main__.py`; `cwd` stands for
the working directory that `path.abspath` consults. -/
def get_title (cwd : String) (file_name : Option String) (title_val : Option String) :
    Option String :=
  match title_val with
  | some t => some t
  | none =>
    match file_name with
    | some fn => some (splitext (basename (abspath cwd fn))).1
    | none => none

/-! ### The per-document pipeline (`Convert`) -/

/-- Document status constant `PASS` from `__main__.py`. -/
def PASS : Nat := 0

/-- Document status constant `FAIL` from `__main__.py`. -/
def FAIL : Nat := 1

/-- The `page` sub-dictionary of a resolved settings object, holding the
fields `__main__.py` reads from it. -/
structure Page where
  destination : Option String
  basepath : Option String
  references : List String
  meta : Meta

/-- A resolved settings object as returned by `config.get`:
`settings["page"]` plus the engine-options dictionary `settings["settings"]`
(the latter is only passed on to collaborators). -/
structure Settings where
  page : Page
  settingsDict : Meta

/-- The fields of the `Settings` config object (`self.config`) that
`Convert` reads. -/
structure Config where
  encoding : String
  output_encoding : String
  critic : Nat
  is_stream : Bool
  preview : Bool
  plain : Bool
  clean : Bool

/-- The constructor fields of the `Convert` object itself. -/
structure Conv where
  output : Option String
  basepath : Option String
  title : Option String

/-- Observable events of one run: log lines and collaborator calls. -/
inductive Event where
  | error (msg : String)
  | info (msg : String)
  | settingsCall (fileName : Option String) (frontmatter : Meta)
  | extractFM
  | readF (name : String)
  | setMeta (m : Meta)
  | writeOut (content : String)
  | convertCall (mdFile : Option String)
deriving DecidableEq, Repr

/-- Collaborators from the `lib` package (absent from the sources) and
the file system, abstracted as oracles.  `configGet` is
`self.config.get(file_name, basepath=…, output=…, frontmatter=…)` with
`none` standing for a raised exception; `readFile` is `codecs.open` +
`read` with `none` for a raised exception; `getFrontmatterString` is
`lib.frontmatter.get_frontmatter_string`; `splitenc` is `res.splitenc`
(modelled from the spec: splits an explicit encoding suffix off a
reference entry, returning the bare name and the encoding to use);
`loadText` is `res.load_text_resource`; `mkText`/`mkHtml` are the
`formatter.Text`/`formatter.Html` constructors (`false`/`none` for a
raised exception, `mkHtml`'s payload being the output file name);
`criticResolve` is `critic_dump.CriticDump().dump`; `convertMd` is
`MdConverts` + `convert` yielding the engine metadata and the markdown
output (`none` for a raised exception); `scrub` is `scrub.scrub`;
`cwd` is the working directory `path.abspath` consults. -/
structure Env where
  configGet : Option String → Option String → Option String → Meta → Option Settings
  readFile : String → Option String
  getFrontmatterString : String → Meta × String
  userPath : String
  splitenc : String → String → String × String
  pathExists : String → Bool
  isfile : String → Bool
  loadText : String → String → String
  mkText : Option String → String → Bool
  mkHtml : Settings → Option (Option String)
  criticResolve : String → Nat → Nat → String
  convertMd : String → Settings → Option (Meta × String)
  scrub : String → String
  cwd : String

/-- Candidate selection of `get_references` for one (already
encoding-split) entry: try the base path, then the "user" path, then an
absolute entry itself; note the source joins `file_name` onto
`user_path` even though `user_path = join(get_user_path(), file_name)`
already ends in `file_name`, and its `user_temp is not None` guard is
vacuous because `path.join` never returns `None`. -/
def refCandidate (env : Env) (basepath : Option String) (file_name : String) :
    Option String :=
  let user_path := pathJoin env.userPath file_name
  if ¬ isabs file_name then
    let base_temp := basepath.map (fun bp => normpath (pathJoin bp file_name))
    let user_temp := normpath (pathJoin user_path file_name)
    match base_temp with
    | some bt =>
      if env.pathExists bt ∧ env.isfile bt then some bt
      else if env.pathExists user_temp ∧ env.isfile user_temp then some user_temp
      else none
    | none =>
      if env.pathExists user_temp ∧ env.isfile user_temp then some user_temp
      else none
  else if env.pathExists file_name ∧ env.isfile file_name then some file_name
  else none

/-- `get_references(references, basepath, encoding)` from `__main__.py`,
returning the accumulated text and the logged events.  The source
rebinds `encoding` to each entry's split-off encoding, so the default
encoding threads from one entry to the next exactly as here. -/
def get_references (env : Env) (references : List String) (basepath : Option String)
    (encoding : String) : String × List Event :=
  match references with
  | [] => ("", [])
  | entry :: rest =>
    let fe := env.splitenc entry encoding
    let r1 : String × List Event :=
      match refCandidate env basepath fe.1 with
      | some rp => (env.loadText rp fe.2, [])
      | none =>
        ("", [Event.error ("Could not find reference file " ++ fe.1 ++ "!")])
    let r2 := get_references env rest basepath fe.2
    (r1.1 ++ r2.1, r1.2 ++ r2.2)

/-- Tail of `Convert.critic_dump` after settings resolution and file
reading succeeded: the accept/reject check, `formatter.Text` creation,
and the final resolve-and-write block. -/
def critic_dump_rest (env : Env) (cfg : Config) (stg : Settings) (text : String)
    (tr : List Event) : Nat × List Event :=
  if cfg.critic &&& (CRITIC_REJECT ||| CRITIC_ACCEPT) = 0 then
    (FAIL, tr ++ [Event.error "Acceptance or rejection was not specified for critic dump!"])
  else if env.mkText stg.page.destination cfg.output_encoding then
    let out := env.criticResolve text (cfg.critic &&& CRITIC_ACCEPT) (cfg.critic &&& CRITIC_VIEW)
    (PASS, tr ++ [Event.writeOut out])
  else
    (FAIL, tr ++ [Event.error "Failed to create text file!"])

/-- `Convert.critic_dump(file_name, text)` from `__main__.py`.  Settings
are resolved first, with the **default** empty front matter (no
extraction happens in this branch), then the file is re-read when a file
name is present.  In the stream case the source would hand a `None`
text straight to the critic engine; that point is unreachable from
`convert` (a `None` stream is rejected by its "Nothing to parse!"
guard), and is embedded as the empty string. -/
def critic_dump (env : Env) (cfg : Config) (c : Conv) (file_name : Option String)
    (text : Option String) : Nat × List Event :=
  let trS := [Event.settingsCall file_name []]
  match env.configGet file_name c.basepath c.output [] with
  | none => (FAIL, trS ++ [Event.error "traceback"])
  | some stg =>
    match file_name with
    | some f =>
      match env.readFile f with
      | none => (FAIL, trS ++ [Event.readF f, Event.error ("Failed to open " ++ f ++ "!")])
      | some t => critic_dump_rest env cfg stg t (trS ++ [Event.readF f])
    | none => critic_dump_rest env cfg stg (text.getD "") trS

/-- Tail of `Convert.html_dump` after the source text is in hand: front
matter extraction, settings resolution with that front matter, reference
gathering, `formatter.Html` creation, markdown conversion, metadata
merging, and the final write (the optional browser preview is a
fire-and-forget side effect, not modelled). -/
def html_dump_rest (env : Env) (cfg : Config) (c : Conv) (file_name : Option String)
    (html_title : Option String) (text : String) (tr : List Event) : Nat × List Event :=
  let fmb := env.getFrontmatterString text
  let tr := tr ++ [Event.extractFM, Event.settingsCall file_name fmb.1]
  match env.configGet file_name c.basepath c.output fmb.1 with
  | none => (FAIL, tr ++ [Event.error "traceback"])
  | some stg =>
    let refr :=
      get_references env stg.page.references stg.page.basepath cfg.encoding
    let text := fmb.2 ++ refr.1
    let tr := tr ++ refr.2
    match env.mkHtml stg with
    | none => (FAIL, tr ++ [Event.error "traceback"])
    | some _ =>
      match env.convertMd text stg with
      | none => (FAIL, tr ++ [Event.error "traceback"])
      | some (convMeta, markdown) =>
        let merged := merge_meta convMeta stg.page.meta html_title
        let tr := tr ++ [Event.setMeta merged]
        let outText := if cfg.clean then env.scrub markdown else markdown
        (PASS, tr ++ [Event.writeOut outText])

/-- `Convert.html_dump(file_name, text)` from `__main__.py`. -/
def html_dump (env : Env) (cfg : Config) (c : Conv) (file_name : Option String)
    (text : Option String) : Nat × List Event :=
  let html_title := get_title env.cwd file_name c.title
  match file_name with
  | some f =>
    match env.readFile f with
    | none => (FAIL, [Event.readF f, Event.error ("Failed to open " ++ f ++ "!")])
    | some t => html_dump_rest env cfg c file_name html_title t [Event.readF f]
  | none => html_dump_rest env cfg c none html_title (text.getD "") []

/-- The per-document dispatch inside `Convert.convert`'s loop body:
file name and text are chosen by stream mode, then `critic_dump` or
`html_dump` runs depending on the Dump flag. -/
def doc_convert (env : Env) (cfg : Config) (c : Conv) (md_file : Option String) :
    Nat × List Event :=
  let file_name := if ¬ cfg.is_stream then md_file else none
  let text := if ¬ cfg.is_stream then none else md_file
  if cfg.critic &&& CRITIC_DUMP ≠ 0 then critic_dump env cfg c file_name text
  else html_dump env cfg c file_name text

/-- `"%s" % md_file` for an optional string, as Python renders it. -/
def showFile : Option String → String
  | some s => s
  | none => "None"

/-- The progress log line at the top of `Convert.convert`'s loop body. -/
def loopInfoEv (cfg : Config) (md_file : Option String) : Event :=
  if cfg.is_stream then Event.info "Converting buffer..."
  else Event.info ("Converting " ++ showFile md_file ++ "...")

/-- The `for md_file in files` loop of `Convert.convert`: breaks before
a document as soon as the status is no longer `PASS`. -/
def convert_loop (env : Env) (cfg : Config) (c : Conv) :
    List (Option String) → Nat → Nat × List Event
  | [], status => (status, [])
  | md_file :: rest, status =>
    if status ≠ PASS then (status, [])
    else
      let r := doc_convert env cfg c md_file
      let r2 := convert_loop env cfg c rest r.1
      (r2.1, loopInfoEv cfg md_file :: Event.convertCall md_file :: (r.2 ++ r2.2))

/-- The guard `files is None or len(files) == 0 or files[0] in ('', None)`
of `Convert.convert`. -/
def nothing_to_parse (files : Option (List (Option String))) : Bool :=
  match files with
  | none => true
  | some [] => true
  | some (f :: _) => f = some "" ∨ f = none

/-- `Convert.convert(files)` from `__main__.py`. -/
def convert (env : Env) (cfg : Config) (c : Conv) (files : Option (List (Option String))) :
    Nat × List Event :=
  if nothing_to_parse files then (FAIL, [Event.error "Nothing to parse!"])
  else convert_loop env cfg c (files.getD []) PASS

/-- Is this event a front-matter extraction? -/
def Event.isExtractFM : Event → Bool
  | Event.extractFM => true
  | _ => false

/-- Is this event a write of an output artifact? -/
def Event.isWrite : Event → Bool
  | Event.writeOut _ => true
  | _ => false

/-- The document of a per-document dispatch event, if it is one. -/
def convertCallFile : Event → Option (Option String)
  | Event.convertCall f => some f
  | _ => none

/-- The documents dispatched during a run, in order. -/
def ccFiles (tr : List Event) : List (Option String) :=
  tr.filterMap convertCallFile

/-! ### The smart delete/insert inline patterns (`mdownx/delete.py`, `mdownx/insert.py`)

`RE_SMART_DEL = (?<![a-zA-Z\d~])(~{2})(?![~\s])(.+?~*?)(?<!\s)\2(?![a-zA-Z\d~])` and
`RE_SMART_INS = (?<![a-zA-Z\d\^])(\^{2})(?![\^\s])(.+?\^*?)(?<!\s)\2(?![a-zA-Z\d\^])`
are embedded as abstract-syntax trees over the constructs they use, with
a semantics giving the **set** of end positions reachable from a start
position.  Lazy (`+?`, `*?`) only picks which of the reachable matches
the engine reports first; since the claims quantify over every
recognized match, the reachable-set semantics settles them.  The
backreference `\2` denotes the group `(~{2})`/`(\^{2})` (Python-Markdown
wraps patterns in an extra leading group, shifting group numbers by
one), whose match is always exactly the doubled delimiter, so it is
embedded as the two delimiter literals. -/

/-- Regex constructs used by the smart patterns: a single character of a
class, a literal character, concatenation, `+`/`*` over a class, and
single-character negative lookbehind/lookahead. -/
inductive Re where
  | cls (p : Char → Bool)
  | lit (c : Char)
  | seq (r1 r2 : Re)
  | plusCls (p : Char → Bool)
  | starCls (p : Char → Bool)
  | nlb (p : Char → Bool)
  | nla (p : Char → Bool)

/-- Length of the run of `p`-characters starting at `a`. -/
def runLen (s : List Char) (p : Char → Bool) (a : Nat) : Nat :=
  ((s.drop a).takeWhile p).length

/-- All positions where `r` can stop matching in `s` when started at
position `a` (the reachable-match semantics described above). -/
def ends (r : Re) (s : List Char) (a : Nat) : List Nat :=
  match r with
  | Re.cls p =>
    match s.get? a with
    | some c => if p c then [a + 1] else []
    | none => []
  | Re.lit c =>
    match s.get? a with
    | some c' => if c' = c then [a + 1] else []
    | none => []
  | Re.seq r1 r2 => (ends r1 s a).flatMap (fun m => ends r2 s m)
  | Re.plusCls p => List.range' (a + 1) (runLen s p a)
  | Re.starCls p => List.range' a (runLen s p a + 1)
  | Re.nlb p =>
    if a = 0 then [a]
    else
      match s.get? (a - 1) with
      | some c => if p c then [] else [a]
      | none => [a]
  | Re.nla p =>
    match s.get? a with
    | some c => if p c then [] else [a]
    | none => [a]

/-- The character class `[a-zA-Z\d d]` of the smart patterns' boundary
lookarounds: ASCII letter, digit, or the delimiter character itself. -/
def wordRun (d : Char) (c : Char) : Bool :=
  ('a' ≤ c && c ≤ 'z') || ('A' ≤ c && c ≤ 'Z') || c.isDigit || c = d

/-- The smart pattern for delimiter character `d`, piece by piece:
`(?<![a-zA-Z\d d]) d d (?![d\s]) .+? d*? (?<!\s) d d (?![a-zA-Z\d d])`
(where `.` excludes the newline, as Python's `re` does without
`DOTALL`). -/
def smartRe (d : Char) : Re :=
  Re.seq (Re.nlb (wordRun d))
    (Re.seq (Re.lit d)
      (Re.seq (Re.lit d)
        (Re.seq (Re.nla (fun c => c = d || c.isWhitespace))
          (Re.seq (Re.plusCls (fun c => c ≠ '\n'))
            (Re.seq (Re.starCls (fun c => c = d))
              (Re.seq (Re.nlb (fun c => c.isWhitespace))
                (Re.seq (Re.lit d)
                  (Re.seq (Re.lit d) (Re.nla (wordRun d))))))))))

/-- `RE_SMART_DEL` from `mdownx/delete.py`. -/
def RE_SMART_DEL : Re := smartRe '~'

/-- `RE_SMART_INS` from `mdownx/insert.py`. -/
def RE_SMART_INS : Re := smartRe '^'

/-! ### Concrete scenarios used by counterexamples and witnesses -/

/-- A resolved settings object with everything empty. -/
def stgBase : Settings :=
  { page := { destination := none, basepath := none, references := [], meta := [] }
    settingsDict := [] }

/-- A benign environment: every collaborator succeeds and is inert. -/
def envBase : Env :=
  { configGet := fun _ _ _ _ => some stgBase
    readFile := fun _ => some "text"
    getFrontmatterString := fun t => ([], t)
    userPath := "/home/u/.pymdown"
    splitenc := fun e d => (e, d)
    pathExists := fun _ => false
    isfile := fun _ => false
    loadText := fun _ _ => ""
    mkText := fun _ _ => true
    mkHtml := fun _ => some none
    criticResolve := fun t _ _ => t
    convertMd := fun _ _ => some ([], "html")
    scrub := id
    cwd := "/cwd" }

/-- A benign configuration: plain batch render, no critic flags. -/
def cfgBase : Config :=
  { encoding := "utf-8", output_encoding := "utf-8", critic := CRITIC_IGNORE
    is_stream := false, preview := false, plain := false, clean := false }

/-- A `Convert` object with no overrides. -/
def convBase : Conv := { output := none, basepath := none, title := none }

/-- Configuration produced by `--critic-dump` alone (no accept/reject). -/
def cfgDump : Config :=
  { cfgBase with critic := CRITIC_IGNORE ||| CRITIC_DUMP }

/-- Configuration produced by `--critic-dump --accept`. -/
def cfgDumpAccept : Config :=
  { cfgBase with critic := (CRITIC_IGNORE ||| CRITIC_ACCEPT) ||| CRITIC_DUMP }

/-- Settings whose front-matter metadata carries `k = front`. -/
def stgMetaClash : Settings :=
  { stgBase with page := { stgBase.page with meta := [("k", "front")] } }

/-- Scenario for the metadata-precedence counterexample: the engine
emits `k = engine`, the front-matter metadata carries `k = front`. -/
def envMetaClash : Env :=
  { envBase with
    configGet := fun _ _ _ _ => some stgMetaClash
    convertMd := fun _ _ => some ([("k", "engine")], "html") }

/-- Scenario for the critic-dump front-matter counterexample: the
document opens with a front-matter block declaring a title. -/
def envFM : Env :=
  { envBase with
    readFile := fun _ => some "---\ntitle: X\n---\nbody"
    getFrontmatterString := fun t =>
      if t = "---\ntitle: X\n---\nbody" then ([("title", "X")], "body") else ([], t) }

/-- Scenario for the user-path reference bug: the intended user-path
candidate `/home/u/.pymdown/extra.md` is an existing regular file, but
nothing else is — in particular not the doubly joined
`/home/u/.pymdown/extra.md/extra.md` the code actually probes. -/
def envUserRef : Env :=
  { envBase with
    pathExists := fun p => p = "/home/u/.pymdown/extra.md"
    isfile := fun p => p = "/home/u/.pymdown/extra.md"
    loadText := fun _ _ => "REFTEXT" }

/-- Scenario for the fail-fast batch property: every document opens
except `bad.md`. -/
def envC3 : Env :=
  { envBase with
    readFile := fun f => if f = "bad.md" then none else some "text" }

/-- Scenario for the recoverable-reference property: settings carry one
reference entry that resolves nowhere, and every other stage succeeds. -/
def envRefMissing : Env :=
  { envBase with
    configGet := fun _ _ _ _ =>
      some { stgBase with page := { stgBase.page with references := ["missing.md"] } } }

/-! ## Theorems -/

/-- C8: when both the accept flag and the reject flag are set, the
computed critic mode has the View flag and neither the Accept nor the
Reject flag; and for every argument combination the mode never has both
Accept and Reject set. -/
theorem spec_C8 (args : Args) :
    (args.accept = true → args.reject = true →
      get_critic_mode args &&& CRITIC_VIEW ≠ 0 ∧
      get_critic_mode args &&& CRITIC_ACCEPT = 0 ∧
      get_critic_mode args &&& CRITIC_REJECT = 0) ∧
    ¬ (get_critic_mode args &&& CRITIC_ACCEPT ≠ 0 ∧
       get_critic_mode args &&& CRITIC_REJECT ≠ 0) := by
  obtain ⟨a, r, d⟩ := args
  cases a <;> cases r <;> cases d <;> decide

/-- Witness for C8 at `--accept --reject` without `--critic-dump`. -/
theorem spec_C8_witness :
    (get_critic_mode ⟨true, true, false⟩ &&& CRITIC_VIEW ≠ 0 ∧
     get_critic_mode ⟨true, true, false⟩ &&& CRITIC_ACCEPT = 0 ∧
     get_critic_mode ⟨true, true, false⟩ &&& CRITIC_REJECT = 0) ∧
    ¬ (get_critic_mode ⟨true, true, false⟩ &&& CRITIC_ACCEPT ≠ 0 ∧
       get_critic_mode ⟨true, true, false⟩ &&& CRITIC_REJECT ≠ 0) :=
  ⟨(spec_C8 ⟨true, true, false⟩).1 rfl rfl, (spec_C8 ⟨true, true, false⟩).2⟩

/-- C10: when the source list is `None`, empty, or has an empty-string
or `None` first element, `Convert.convert` logs "Nothing to parse!" and
returns FAIL without dispatching any per-document conversion. -/
theorem spec_C10 (env : Env) (cfg : Config) (c : Conv)
    (files : Option (List (Option String)))
    (h : files = none ∨ files = some [] ∨
      ∃ f rest, files = some (f :: rest) ∧ (f = none ∨ f = some "")) :
    convert env cfg c files = (FAIL, [Event.error "Nothing to parse!"]) ∧
    ccFiles (convert env cfg c files).2 = [] := by
  have hg : nothing_to_parse files = true := by
    rcases h with h | h | ⟨f, rest, h, hf⟩
    · subst h; rfl
    · subst h; rfl
    · subst h
      rcases hf with hf | hf <;> subst hf <;> simp [nothing_to_parse]
  refine ⟨?_, ?_⟩
  · simp [convert, hg]
  · simp [convert, hg, ccFiles, convertCallFile]

/-- Witness for C10 on a `None` source list. -/
theorem spec_C10_witness :
    convert envBase cfgBase convBase none = (FAIL, [Event.error "Nothing to parse!"]) ∧
    ccFiles (convert envBase cfgBase convBase none).2 = [] :=
  spec_C10 envBase cfgBase convBase none (Or.inl rfl)

/-- C1: with the Dump flag set and neither Accept nor Reject in the
critic mode, `Convert.critic_dump` fails the document, never writes an
output artifact, and — whenever it reaches the check at all (settings
resolution and file reading succeeded) — logs the
acceptance-or-rejection configuration error. -/
theorem spec_C1 (env : Env) (cfg : Config) (c : Conv) (fn tx : Option String)
    (_hdump : cfg.critic &&& CRITIC_DUMP ≠ 0)
    (har : cfg.critic &&& (CRITIC_REJECT ||| CRITIC_ACCEPT) = 0) :
    (critic_dump env cfg c fn tx).1 = FAIL ∧
    ((critic_dump env cfg c fn tx).2.all (fun e => !e.isWrite)) = true ∧
    (env.configGet fn c.basepath c.output [] ≠ none →
      (∀ f, fn = some f → env.readFile f ≠ none) →
      Event.error "Acceptance or rejection was not specified for critic dump!" ∈
        (critic_dump env cfg c fn tx).2) := by
  cases hcg : env.configGet fn c.basepath c.output [] with
  | none =>
    simp [critic_dump, hcg, Event.isWrite, FAIL]
  | some stg =>
    cases fn with
    | none =>
      simp [critic_dump, hcg, critic_dump_rest, har, Event.isWrite, FAIL]
    | some f =>
      cases hrf : env.readFile f with
      | none =>
        simp [critic_dump, hcg, hrf, Event.isWrite, FAIL]
      | some t =>
        simp [critic_dump, hcg, hrf, critic_dump_rest, har, Event.isWrite, FAIL]

/-- Witness for C1: `--critic-dump` alone on a readable document. -/
theorem spec_C1_witness :
    cfgDump.critic &&& CRITIC_DUMP ≠ 0 ∧
    cfgDump.critic &&& (CRITIC_REJECT ||| CRITIC_ACCEPT) = 0 ∧
    (critic_dump envBase cfgDump convBase (some "doc.md") none).1 = FAIL ∧
    Event.error "Acceptance or rejection was not specified for critic dump!" ∈
      (critic_dump envBase cfgDump convBase (some "doc.md") none).2 := by
  have h := spec_C1 envBase cfgDump convBase (some "doc.md") none
    (by decide) (by decide)
  exact ⟨by decide, by decide, h.1,
    h.2.2 (by intro hx; cases hx) (by intro f hf hx; cases hx)⟩

/-- C6 counterexample: on a document whose text carries a front-matter
block with a title, the CriticDump branch resolves settings with the
empty mapping, never performs a front-matter extraction step, and never
resolves settings with the front matter the block contains. -/
theorem spec_C6_cex :
    (critic_dump envFM cfgDumpAccept convBase (some "doc.md") none).2 =
      [Event.settingsCall (some "doc.md") [], Event.readF "doc.md",
       Event.writeOut "---\ntitle: X\n---\nbody"] ∧
    (envFM.getFrontmatterString "---\ntitle: X\n---\nbody").1 = [("title", "X")] ∧
    Event.settingsCall (some "doc.md") [("title", "X")] ∉
      (critic_dump envFM cfgDumpAccept convBase (some "doc.md") none).2 ∧
    ((critic_dump envFM cfgDumpAccept convBase (some "doc.md") none).2.all
      (fun e => !e.isExtractFM)) = true := by
  decide

/-- C6 as amended: the CriticDump branch's first step is settings
resolution with an **empty** front-matter mapping (reading the file only
afterwards), and no front-matter extraction ever happens in this
branch. -/
theorem spec_C6 (env : Env) (cfg : Config) (c : Conv) (fn tx : Option String) :
    (critic_dump env cfg c fn tx).2.head? = some (Event.settingsCall fn []) ∧
    ((critic_dump env cfg c fn tx).2.all (fun e => !e.isExtractFM)) = true := by
  cases hcg : env.configGet fn c.basepath c.output [] with
  | none => simp [critic_dump, hcg, Event.isExtractFM]
  | some stg =>
    cases fn with
    | none =>
      by_cases har : cfg.critic &&& (CRITIC_REJECT ||| CRITIC_ACCEPT) = 0
      · simp [critic_dump, hcg, critic_dump_rest, har, Event.isExtractFM]
      · by_cases hmk : env.mkText stg.page.destination cfg.output_encoding = true
        · simp [critic_dump, hcg, critic_dump_rest, har, hmk, Event.isExtractFM]
        · simp [critic_dump, hcg, critic_dump_rest, har, hmk, Event.isExtractFM]
    | some f =>
      cases hrf : env.readFile f with
      | none => simp [critic_dump, hcg, hrf, Event.isExtractFM]
      | some t =>
        by_cases har : cfg.critic &&& (CRITIC_REJECT ||| CRITIC_ACCEPT) = 0
        · simp [critic_dump, hcg, hrf, critic_dump_rest, har, Event.isExtractFM]
        · by_cases hmk : env.mkText stg.page.destination cfg.output_encoding = true
          · simp [critic_dump, hcg, hrf, critic_dump_rest, har, hmk, Event.isExtractFM]
          · simp [critic_dump, hcg, hrf, critic_dump_rest, har, hmk, Event.isExtractFM]

/-- C4: the code probes the user-resource fallback at
`join(join(user_dir, name), name)` — the entry's file name joined twice —
so a reference that sits exactly at `join(user_dir, name)` (the
candidate the spec describes) is missed: the entry contributes empty
text and an error is logged even though the intended candidate is an
existing regular file. -/
theorem spec_C4_bug :
    get_references envUserRef ["extra.md"] (some "/docs") "utf-8" =
      ("", [Event.error "Could not find reference file extra.md!"]) ∧
    envUserRef.pathExists "/home/u/.pymdown/extra.md" = true ∧
    envUserRef.isfile "/home/u/.pymdown/extra.md" = true ∧
    pathJoin envUserRef.userPath "extra.md" = "/home/u/.pymdown/extra.md" ∧
    normpath (pathJoin (pathJoin envUserRef.userPath "extra.md") "extra.md") =
      "/home/u/.pymdown/extra.md/extra.md" ∧
    envUserRef.isfile "/home/u/.pymdown/extra.md/extra.md" = false ∧
    refCandidate envUserRef (some "/docs") "extra.md" = none := by
  decide

theorem ccFiles_append (a b : List Event) : ccFiles (a ++ b) = ccFiles a ++ ccFiles b :=
  List.filterMap_append a b convertCallFile

theorem ccFiles_get_references (env : Env) (refs : List String) (bp : Option String)
    (enc : String) : ccFiles (get_references env refs bp enc).2 = [] := by
  induction refs generalizing enc with
  | nil => rfl
  | cons e rest ih =>
    cases hc : refCandidate env bp (env.splitenc e enc).1 with
    | some rp =>
      simp only [get_references, hc, ccFiles_append, ih]
      rfl
    | none =>
      simp only [get_references, hc, ccFiles_append, ih]
      rfl

theorem ccFiles_critic_dump (env : Env) (cfg : Config) (c : Conv) (fn tx : Option String) :
    ccFiles (critic_dump env cfg c fn tx).2 = [] := by
  cases hcg : env.configGet fn c.basepath c.output [] with
  | none => simp only [critic_dump, hcg]; rfl
  | some stg =>
    cases fn with
    | none =>
      by_cases har : cfg.critic &&& (CRITIC_REJECT ||| CRITIC_ACCEPT) = 0
      · simp only [critic_dump, hcg, critic_dump_rest, if_pos har]; rfl
      · by_cases hmk : env.mkText stg.page.destination cfg.output_encoding = true
        · simp only [critic_dump, hcg, critic_dump_rest, if_neg har, if_pos hmk]; rfl
        · simp only [critic_dump, hcg, critic_dump_rest, if_neg har,
            if_neg hmk]; rfl
    | some f =>
      cases hrf : env.readFile f with
      | none => simp only [critic_dump, hcg, hrf]; rfl
      | some t =>
        by_cases har : cfg.critic &&& (CRITIC_REJECT ||| CRITIC_ACCEPT) = 0
        · simp only [critic_dump, hcg, hrf, critic_dump_rest, if_pos har]; rfl
        · by_cases hmk : env.mkText stg.page.destination cfg.output_encoding = true
          · simp only [critic_dump, hcg, hrf, critic_dump_rest, if_neg har, if_pos hmk]; rfl
          · simp only [critic_dump, hcg, hrf, critic_dump_rest, if_neg har, if_neg hmk]; rfl

theorem ccFiles_html_dump_rest (env : Env) (cfg : Config) (c : Conv)
    (fn ht : Option String) (text : String) (tr : List Event)
    (htr : ccFiles tr = []) :
    ccFiles (html_dump_rest env cfg c fn ht text tr).2 = [] := by
  cases hcg : env.configGet fn c.basepath c.output (env.getFrontmatterString text).1 with
  | none =>
    simp only [html_dump_rest, hcg, ccFiles_append, htr]
    rfl
  | some stg =>
    cases hmk : env.mkHtml stg with
    | none =>
      simp only [html_dump_rest, hcg, hmk, ccFiles_append, htr, ccFiles_get_references]
      rfl
    | some hname =>
      cases hcm : env.convertMd ((env.getFrontmatterString text).2 ++
          (get_references env stg.page.references stg.page.basepath cfg.encoding).1) stg with
      | none =>
        simp only [html_dump_rest, hcg, hmk, hcm, ccFiles_append, htr, ccFiles_get_references]
        rfl
      | some pr =>
        simp only [html_dump_rest, hcg, hmk, hcm, ccFiles_append, htr, ccFiles_get_references]
        rfl

theorem ccFiles_html_dump (env : Env) (cfg : Config) (c : Conv) (fn tx : Option String) :
    ccFiles (html_dump env cfg c fn tx).2 = [] := by
  cases fn with
  | none => exact ccFiles_html_dump_rest env cfg c none _ _ [] rfl
  | some f =>
    cases hrf : env.readFile f with
    | none => simp [html_dump, hrf, ccFiles, convertCallFile]
    | some t =>
      simpa [html_dump, hrf] using
        ccFiles_html_dump_rest env cfg c (some f) (get_title env.cwd (some f) c.title) t
          [Event.readF f] rfl

theorem ccFiles_doc_convert (env : Env) (cfg : Config) (c : Conv) (f : Option String) :
    ccFiles (doc_convert env cfg c f).2 = [] := by
  by_cases hd : cfg.critic &&& CRITIC_DUMP ≠ 0
  · simp [doc_convert, hd, ccFiles_critic_dump]
  · simp [doc_convert, hd, ccFiles_html_dump]

theorem convert_loop_stop (env : Env) (cfg : Config) (c : Conv)
    (xs : List (Option String)) : convert_loop env cfg c xs FAIL = (FAIL, []) := by
  cases xs <;> rfl

theorem convert_loop_cons_fst (env : Env) (cfg : Config) (c : Conv) (f : Option String)
    (rest : List (Option String)) :
    (convert_loop env cfg c (f :: rest) PASS).1 =
      (convert_loop env cfg c rest (doc_convert env cfg c f).1).1 := rfl

theorem convert_loop_cons_snd (env : Env) (cfg : Config) (c : Conv) (f : Option String)
    (rest : List (Option String)) :
    (convert_loop env cfg c (f :: rest) PASS).2 =
      loopInfoEv cfg f :: Event.convertCall f ::
        ((doc_convert env cfg c f).2 ++
          (convert_loop env cfg c rest (doc_convert env cfg c f).1).2) := rfl

theorem ccFiles_infoEv_cons (cfg : Config) (f : Option String) (tr : List Event) :
    ccFiles (loopInfoEv cfg f :: tr) = ccFiles tr := by
  cases hs : cfg.is_stream <;> simp [loopInfoEv, hs] <;> rfl

theorem ccFiles_cc_cons (f : Option String) (tr : List Event) :
    ccFiles (Event.convertCall f :: tr) = f :: ccFiles tr := rfl

/-- C3: documents are processed in sequence; once one document's
conversion returns FAIL, no later document is dispatched and the run
reports FAIL (the trace's dispatch events are exactly the documents up
to and including the failing one). -/
theorem spec_C3 (env : Env) (cfg : Config) (c : Conv)
    (pre : List (Option String)) (d : Option String) (post : List (Option String))
    (hpre : ∀ x ∈ pre, (doc_convert env cfg c x).1 = PASS)
    (hd : (doc_convert env cfg c d).1 = FAIL)
    (hguard : nothing_to_parse (some (pre ++ d :: post)) = false) :
    (convert env cfg c (some (pre ++ d :: post))).1 = FAIL ∧
    ccFiles (convert env cfg c (some (pre ++ d :: post))).2 = pre ++ [d] := by
  have key : ∀ pre' : List (Option String),
      (∀ x ∈ pre', (doc_convert env cfg c x).1 = PASS) →
      (convert_loop env cfg c (pre' ++ d :: post) PASS).1 = FAIL ∧
      ccFiles (convert_loop env cfg c (pre' ++ d :: post) PASS).2 = pre' ++ [d] := by
    intro pre'
    induction pre' with
    | nil =>
      intro _
      constructor
      · rw [List.nil_append, convert_loop_cons_fst, hd, convert_loop_stop]
      · rw [List.nil_append, convert_loop_cons_snd, hd, convert_loop_stop,
          ccFiles_infoEv_cons, ccFiles_cc_cons, ccFiles_append, ccFiles_doc_convert]
        rfl
    | cons x xs ih =>
      intro h
      have hx : (doc_convert env cfg c x).1 = PASS := h x (by simp)
      have hxs := ih (fun y hy => h y (by simp [hy]))
      constructor
      · rw [List.cons_append, convert_loop_cons_fst, hx]
        exact hxs.1
      · rw [List.cons_append, convert_loop_cons_snd, hx,
          ccFiles_infoEv_cons, ccFiles_cc_cons, ccFiles_append, ccFiles_doc_convert,
          hxs.2]
        rfl
  have hc : convert env cfg c (some (pre ++ d :: post)) =
      convert_loop env cfg c (pre ++ d :: post) PASS := by
    simp [convert, hguard]
  rw [hc]
  exact key pre hpre

/-- Witness for C3: a three-document batch whose second document fails
to open. -/
theorem spec_C3_witness :
    (convert envC3 cfgBase convBase
        (some [some "good.md", some "bad.md", some "third.md"])).1 = FAIL ∧
    ccFiles (convert envC3 cfgBase convBase
        (some [some "good.md", some "bad.md", some "third.md"])).2 =
      [some "good.md", some "bad.md"] := by
  have h := spec_C3 envC3 cfgBase convBase [some "good.md"] (some "bad.md")
    [some "third.md"] (by decide) (by decide) (by decide)
  exact ⟨h.1, h.2⟩

/-- C5: a reference entry none of whose candidates is an existing
regular file contributes the empty string, logs an error naming the
entry, and lets the remaining entries be processed; and a document whose
whole pipeline otherwise succeeds still finishes with PASS despite such
an entry. -/
theorem spec_C5 (env : Env) (entry : String) (rest : List String)
    (bp : Option String) (enc : String)
    (hmiss : refCandidate env bp (env.splitenc entry enc).1 = none) :
    (get_references env (entry :: rest) bp enc =
      ("" ++ (get_references env rest bp (env.splitenc entry enc).2).1,
        Event.error ("Could not find reference file " ++ (env.splitenc entry enc).1 ++ "!") ::
          (get_references env rest bp (env.splitenc entry enc).2).2)) ∧
    (html_dump envRefMissing cfgBase convBase (some "doc.md") none).1 = PASS ∧
    Event.error "Could not find reference file missing.md!" ∈
      (html_dump envRefMissing cfgBase convBase (some "doc.md") none).2 := by
  refine ⟨?_, by decide, by decide⟩
  simp only [get_references, hmiss]
  rfl

/-- Witness for C5: a single unresolvable entry `missing.md`. -/
theorem spec_C5_witness :
    (get_references envRefMissing ["missing.md"] none "utf-8" =
      ("" ++ (get_references envRefMissing [] none
          ((envRefMissing.splitenc "missing.md" "utf-8").2)).1,
        Event.error ("Could not find reference file " ++
            (envRefMissing.splitenc "missing.md" "utf-8").1 ++ "!") ::
          (get_references envRefMissing [] none
            ((envRefMissing.splitenc "missing.md" "utf-8").2)).2)) ∧
    (html_dump envRefMissing cfgBase convBase (some "doc.md") none).1 = PASS ∧
    Event.error "Could not find reference file missing.md!" ∈
      (html_dump envRefMissing cfgBase convBase (some "doc.md") none).2 :=
  spec_C5 envRefMissing "missing.md" [] none "utf-8" (by decide)

theorem lastIdxOf_get (l : List Char) (c : Char) (i : Nat)
    (h : lastIdxOf l c = some i) : l.get? i = some c := by
  have hmem : i ∈ (List.range l.length).filter (fun j => l.get? j = some c) :=
    List.mem_of_mem_getLast? h
  exact of_decide_eq_true (List.mem_filter.1 hmem).2

theorem splitext_append (p : String) : (splitext p).1 ++ (splitext p).2 = p := by
  cases h : lastIdxOf p.data '.' with
  | none =>
    simp only [splitext, h]
    show String.mk (p.data ++ []) = p
    rw [List.append_nil]
  | some di =>
    simp only [splitext, h]
    split_ifs
    · show String.mk (p.data.take di ++ p.data.drop di) = p
      rw [List.take_append_drop]
    · show String.mk (p.data ++ []) = p
      rw [List.append_nil]

theorem splitext_dot (p : String) :
    (splitext p).2 = "" ∨ (splitext p).2.data.head? = some '.' := by
  cases h : lastIdxOf p.data '.' with
  | none => simp [splitext, h]
  | some di =>
    simp only [splitext, h]
    split_ifs
    · refine Or.inr ?_
      show (p.data.drop di).head? = some '.'
      rw [List.head?_drop, ← List.get?_eq_getElem?]
      exact lastIdxOf_get p.data '.' di h
    · exact Or.inl rfl

/-- C7: an explicit title wins; otherwise a present file name yields the
stem of its base name (the base name splits as `stem ++ ext` with `ext`
empty or dot-initial); otherwise (stream input) the title stays unset. -/
theorem spec_C7 (cwd : String) (fn tv : Option String) :
    (∀ t, tv = some t → get_title cwd fn tv = some t) ∧
    (tv = none → ∀ f, fn = some f →
      ∃ stem ext, get_title cwd fn tv = some stem ∧
        stem ++ ext = basename (abspath cwd f) ∧
        (ext = "" ∨ ext.data.head? = some '.')) ∧
    (tv = none → fn = none → get_title cwd fn tv = none) := by
  refine ⟨?_, ?_, ?_⟩
  · intro t ht; subst ht; rfl
  · intro ht f hf; subst ht; subst hf
    exact ⟨(splitext (basename (abspath cwd f))).1,
      (splitext (basename (abspath cwd f))).2, rfl,
      splitext_append (basename (abspath cwd f)),
      splitext_dot (basename (abspath cwd f))⟩
  · intro ht hf; subst ht; subst hf; rfl

/-- Witness for C7: derived stem, explicit title, and stream cases. -/
theorem spec_C7_witness :
    get_title "/cwd" (some "doc/readme.md") none = some "readme" ∧
    get_title "/cwd" (some "x.md") (some "T") = some "T" ∧
    get_title "/cwd" none none = none := by
  refine ⟨?_, (spec_C7 "/cwd" (some "x.md") (some "T")).1 "T" rfl,
    (spec_C7 "/cwd" none none).2.2 rfl rfl⟩
  obtain ⟨stem, ext, hs, hse, hdot⟩ :=
    (spec_C7 "/cwd" (some "doc/readme.md") none).2.1 rfl "doc/readme.md" rfl
  have hv : get_title "/cwd" (some "doc/readme.md") none = some "readme" := by decide
  exact hv

theorem dlookup_append (k : String) (l1 l2 : Meta) :
    dlookup k (l1 ++ l2) = (dlookup k l1).or (dlookup k l2) := by
  induction l1 with
  | nil => simp [dlookup]
  | cons p rest ih =>
    obtain ⟨k', v⟩ := p
    by_cases hk : k = k' <;> simp [dlookup, hk, ih]

theorem dlookup_mapUpdate (k : String) (m1 m2 : Meta) :
    dlookup k (m1.map (fun p => match dlookup p.1 m2 with | some v => (p.1, v) | none => p)) =
      (dlookup k m1).map (fun v => (dlookup k m2).getD v) := by
  induction m1 with
  | nil => simp [dlookup]
  | cons p rest ih =>
    obtain ⟨k', v⟩ := p
    by_cases hk : k = k'
    · subst hk
      cases h2 : dlookup k m2 <;> simp [dlookup, h2]
    · cases h2 : dlookup k' m2 <;> simp [dlookup, hk, h2, ih]

theorem dlookup_filter (k : String) (l : Meta) (q : String × String → Bool)
    (hq : ∀ v, q (k, v) = true) : dlookup k (l.filter q) = dlookup k l := by
  induction l with
  | nil => rfl
  | cons p rest ih =>
    obtain ⟨k', v⟩ := p
    by_cases hk : k = k'
    · subst hk
      simp [List.filter, hq v, dlookup]
    · cases hqv : q (k', v) <;> simp [List.filter, hqv, dlookup, hk, ih]

theorem dlookup_filter_none (k : String) (l : Meta) (q : String × String → Bool)
    (h : dlookup k l = none) : dlookup k (l.filter q) = none := by
  induction l with
  | nil => rfl
  | cons p rest ih =>
    obtain ⟨k', v⟩ := p
    by_cases hk : k = k'
    · subst hk; simp [dlookup] at h
    · have hr : dlookup k rest = none := by simpa [dlookup, hk] using h
      cases hqv : q (k', v) <;> simp [List.filter, hqv, dlookup, hk, ih hr]

theorem dlookup_dictUpdate_right (k : String) (m1 m2 : Meta) (v : String)
    (h : dlookup k m2 = some v) : dlookup k (dictUpdate m1 m2) = some v := by
  rw [dictUpdate, dlookup_append, dlookup_mapUpdate]
  cases h1 : dlookup k m1 with
  | some w => simp [h, h1]
  | none =>
    simp only [Option.map_none', Option.none_or]
    rw [dlookup_filter k m2 (fun p => (dlookup p.1 m1).isNone) (fun w => by simp [h1])]
    exact h

theorem dlookup_dictUpdate_left (k : String) (m1 m2 : Meta)
    (h : dlookup k m2 = none) : dlookup k (dictUpdate m1 m2) = dlookup k m1 := by
  rw [dictUpdate, dlookup_append, dlookup_mapUpdate]
  cases h1 : dlookup k m1 with
  | some w => simp [h, h1]
  | none =>
    simp only [Option.map_none', Option.none_or]
    exact dlookup_filter_none k m2 _ h

/-- C2 counterexample: with engine metadata `k = engine` and front-matter
metadata `k = front`, the metadata handed to the output writer carries
`k = front` — the front-matter value, not the engine's, survives the
merge, so the engine's metadata is **not** merged on top. -/
theorem spec_C2_cex :
    Event.setMeta [("k", "front"), ("title", "doc")] ∈
      (html_dump envMetaClash cfgBase convBase (some "doc.md") none).2 ∧
    merge_meta [("k", "engine")] stgMetaClash.page.meta
        (get_title envMetaClash.cwd (some "doc.md") convBase.title) =
      [("k", "front"), ("title", "doc")] ∧
    dlookup "k" [("k", "front"), ("title", "doc")] = some "front" ∧
    dlookup "k" [("k", "front"), ("title", "doc")] ≠ some "engine" := by
  decide

/-- C2 as amended: `html_dump` merges the **front-matter** metadata on
top of the engine's metadata (front matter wins by whole-key
replacement; engine keys survive only where front matter is silent), and
the derived title is backfilled only when no `title` key is present
after the merge. -/
theorem spec_C2 :
    (∀ (m1 m2 : Meta) (t : Option String) (k v : String),
      dlookup k m2 = some v → dlookup k (merge_meta m1 m2 t) = some v) ∧
    (∀ (m1 m2 : Meta) (t : Option String) (k v : String),
      dlookup k m2 = none → dlookup k m1 = some v →
      dlookup k (merge_meta m1 m2 t) = some v) ∧
    (∀ (m1 m2 : Meta) (s : String),
      dlookup "title" m1 = none → dlookup "title" m2 = none →
      dlookup "title" (merge_meta m1 m2 (some s)) = some s) ∧
    (∀ (env : Env) (cfg : Config) (c : Conv) (fn ht : Option String)
      (text : String) (tr : List Event) (stg : Settings) (cm : Meta) (mk : String),
      env.configGet fn c.basepath c.output (env.getFrontmatterString text).1 = some stg →
      env.mkHtml stg ≠ none →
      env.convertMd ((env.getFrontmatterString text).2 ++
          (get_references env stg.page.references stg.page.basepath cfg.encoding).1) stg =
        some (cm, mk) →
      Event.setMeta (merge_meta cm stg.page.meta ht) ∈
        (html_dump_rest env cfg c fn ht text tr).2) := by
  refine ⟨?_, ?_, ?_, ?_⟩
  · intro m1 m2 t k v h
    have hm := dlookup_dictUpdate_right k m1 m2 v h
    simp only [merge_meta]
    split_ifs with hc
    · cases t with
      | none => exact absurd rfl hc.2
      | some t' => rw [dlookup_append, hm]; rfl
    · exact hm
  · intro m1 m2 t k v h2 h1
    have hm : dlookup k (dictUpdate m1 m2) = some v := by
      rw [dlookup_dictUpdate_left k m1 m2 h2]; exact h1
    simp only [merge_meta]
    split_ifs with hc
    · cases t with
      | none => exact absurd rfl hc.2
      | some t' => rw [dlookup_append, hm]; rfl
    · exact hm
  · intro m1 m2 s h1 h2
    have hm : dlookup "title" (dictUpdate m1 m2) = none := by
      rw [dlookup_dictUpdate_left "title" m1 m2 h2]; exact h1
    simp only [merge_meta]
    split_ifs with hc
    · rw [dlookup_append, hm]; rfl
    · exact absurd ⟨hm, by simp⟩ hc
  · intro env cfg c fn ht text tr stg cm mk hcg hmk hcm
    cases hmkv : env.mkHtml stg with
    | none => exact absurd hmkv hmk
    | some hname =>
      simp [html_dump_rest, hcg, hmkv, hcm]

/-- Witness for C2: precedence, fallback and backfill at concrete
mappings, and the merge reaching the output writer in `envMetaClash`. -/
theorem spec_C2_witness :
    dlookup "k" (merge_meta [("k", "engine")] [("k", "front")] none) = some "front" ∧
    dlookup "x" (merge_meta [("x", "keep")] [("k", "front")] none) = some "keep" ∧
    dlookup "title" (merge_meta [] [] (some "T")) = some "T" ∧
    Event.setMeta (merge_meta [("k", "engine")] stgMetaClash.page.meta (some "T")) ∈
      (html_dump_rest envMetaClash cfgBase convBase (some "doc.md") (some "T")
        "text" []).2 := by
  refine ⟨spec_C2.1 [("k", "engine")] [("k", "front")] none "k" "front" (by decide),
    spec_C2.2.1 [("x", "keep")] [("k", "front")] none "x" "keep" (by decide) (by decide),
    spec_C2.2.2.1 [] [] "T" (by decide) (by decide),
    spec_C2.2.2.2 envMetaClash cfgBase convBase (some "doc.md") (some "T") "text" []
      stgMetaClash [("k", "engine")] "html" rfl (by decide) rfl⟩

theorem mem_ends_seq {r1 r2 : Re} {s : List Char} {a b : Nat} :
    b ∈ ends (Re.seq r1 r2) s a ↔ ∃ m, m ∈ ends r1 s a ∧ b ∈ ends r2 s m := by
  simp [ends]

theorem mem_ends_nlb {p : Char → Bool} {s : List Char} {a b : Nat}
    (h : b ∈ ends (Re.nlb p) s a) :
    b = a ∧ (a = 0 ∨ ∀ c, s.get? (a - 1) = some c → p c = false) := by
  unfold ends at h
  by_cases ha : a = 0
  · rw [if_pos ha] at h
    simp only [List.mem_singleton] at h
    exact ⟨h, Or.inl ha⟩
  · rw [if_neg ha] at h
    cases hg : s.get? (a - 1) with
    | none =>
      rw [hg] at h
      simp only [List.mem_singleton] at h
      refine ⟨h, Or.inr ?_⟩
      intro c hc
      cases hc
    | some c0 =>
      rw [hg] at h
      have h2 : b ∈ (if p c0 = true then ([] : List Nat) else [a]) := h
      by_cases hp : p c0 = true
      · rw [if_pos hp] at h2
        cases h2
      · rw [if_neg hp] at h2
        simp only [List.mem_singleton] at h2
        refine ⟨h2, Or.inr ?_⟩
        intro c hc
        cases hc
        exact Bool.eq_false_iff.2 hp

theorem mem_ends_nla {p : Char → Bool} {s : List Char} {a b : Nat}
    (h : b ∈ ends (Re.nla p) s a) :
    b = a ∧ ∀ c, s.get? a = some c → p c = false := by
  unfold ends at h
  cases hg : s.get? a with
  | none =>
    rw [hg] at h
    simp only [List.mem_singleton] at h
    refine ⟨h, ?_⟩
    intro c hc
    cases hc
  | some c0 =>
    rw [hg] at h
    have h2 : b ∈ (if p c0 = true then ([] : List Nat) else [a]) := h
    by_cases hp : p c0 = true
    · rw [if_pos hp] at h2
      cases h2
    · rw [if_neg hp] at h2
      simp only [List.mem_singleton] at h2
      refine ⟨h2, ?_⟩
      intro c hc
      cases hc
      exact Bool.eq_false_iff.2 hp

theorem smartRe_boundary (d : Char) (s : List Char) (a b : Nat)
    (h : b ∈ ends (smartRe d) s a) :
    (a = 0 ∨ ∀ c, s.get? (a - 1) = some c → wordRun d c = false) ∧
    (∀ c, s.get? b = some c → wordRun d c = false) := by
  unfold smartRe at h
  obtain ⟨m1, h1, h⟩ := mem_ends_seq.1 h
  obtain ⟨hm1, hopen⟩ := mem_ends_nlb h1
  subst hm1
  obtain ⟨m2, _, h⟩ := mem_ends_seq.1 h
  obtain ⟨m3, _, h⟩ := mem_ends_seq.1 h
  obtain ⟨m4, _, h⟩ := mem_ends_seq.1 h
  obtain ⟨m5, _, h⟩ := mem_ends_seq.1 h
  obtain ⟨m6, _, h⟩ := mem_ends_seq.1 h
  obtain ⟨m7, _, h⟩ := mem_ends_seq.1 h
  obtain ⟨m8, _, h⟩ := mem_ends_seq.1 h
  obtain ⟨m9, _, h⟩ := mem_ends_seq.1 h
  obtain ⟨m10, _, h⟩ := mem_ends_seq.1 h
  obtain ⟨hb, hclose⟩ := mem_ends_nla h
  subst hb
  exact ⟨hopen, hclose⟩

/-- C9: every match of the smart delete pattern (`RE_SMART_DEL`) and of
the smart insert pattern (`RE_SMART_INS`) has its closing delimiter run
not followed by a letter, a digit, or the delimiter character, and its
opening delimiter run not preceded by one — so a delimiter run adjacent
to such a character is never recognized as the closing (resp. opening)
delimiter of any match. -/
theorem spec_C9 (s : List Char) (a b : Nat) :
    (b ∈ ends RE_SMART_DEL s a →
      (a = 0 ∨ ∀ c, s.get? (a - 1) = some c → wordRun '~' c = false) ∧
      (∀ c, s.get? b = some c → wordRun '~' c = false)) ∧
    (b ∈ ends RE_SMART_INS s a →
      (a = 0 ∨ ∀ c, s.get? (a - 1) = some c → wordRun '^' c = false) ∧
      (∀ c, s.get? b = some c → wordRun '^' c = false)) :=
  ⟨smartRe_boundary '~' s a b, smartRe_boundary '^' s a b⟩

/-- Witness for C9 on the matches `~~ab~~` and `^^ab^^` at offset 0. -/
theorem spec_C9_witness :
    ((6 : Nat) ∈ ends RE_SMART_DEL ['~', '~', 'a', 'b', '~', '~'] 0 ∧
      (∀ c, ['~', '~', 'a', 'b', '~', '~'].get? 6 = some c → wordRun '~' c = false)) ∧
    ((6 : Nat) ∈ ends RE_SMART_INS ['^', '^', 'a', 'b', '^', '^'] 0 ∧
      (∀ c, ['^', '^', 'a', 'b', '^', '^'].get? 6 = some c → wordRun '^' c = false)) := by
  have h1 := (spec_C9 ['~', '~', 'a', 'b', '~', '~'] 0 6).1 (by decide)
  have h2 := (spec_C9 ['^', '^', 'a', 'b', '^', '^'] 0 6).2 (by decide)
  exact ⟨⟨by decide, h1.2⟩, ⟨by decide, h2.2⟩⟩

end PyMdown
